import Mathlib

/-!
Verification of `keystone_hybrid_backend/hybrid_identity.py` (hybrid Keystone
identity backend over the SQL and LDAP drivers).

The single class `Identity` is embedded shallowly:

* `authenticate` models `Identity.authenticate` — empty-password rejection,
  SQL lookup, password check, and the LDAP bind fallback, together with the
  mutation of the instance flag `domain_aware` and a trace of the external
  store operations performed (SQL lookup, LDAP bind / failed bind / unbind).
* `is_domain_aware` models `Identity.is_domain_aware` (read-and-reset).
* `get_user`, `get_user_by_name`, `list_users` model the resolver methods.

External collaborators (keystone SQL driver internals, `utils.check_password`,
the LDAP `UserApi`) are parameters collected in `Env`; they are not code of
this repository and are specified by the spec only at their boundary.
Exceptions are modelled as `Except` results; `AssertionError` (which keystone
maps to AuthenticationFailed) is `BackendError.assertionError` carrying the
message string, so error shapes can be compared.
-/

namespace HybridIdentity

/-- A user record as both stores normalise it: identifier, display name,
optional password-verification material, domain identifier, enabled flag. -/
structure UserRef where
  id : String
  name : String
  password : Option String
  domain_id : String
  enabled : Bool
deriving DecidableEq, Repr

/-- Modelled from the spec: `keystone.identity.backends.base.filter_user` is
keystone code, not part of this repository; per the spec it is "a filtering
step that removes password-verification material and any other fields not
meant to leave the backend boundary". -/
def filter_user (u : UserRef) : UserRef := { u with password := none }

/-- Outcome of the SQL `_get_user` lookup: a record, `UserNotFound`, or a
transient relational-store connection failure. -/
inductive SqlResult where
  | found (u : UserRef)
  | notFound
  | connError
deriving DecidableEq, Repr

/-- Outcome of `utils.check_password(password, stored)`: a boolean return, a
raised `TypeError`, or a raised `KeyError` (absent material). -/
inductive CheckOutcome where
  | ret (b : Bool)
  | typeError
  | keyError
deriving DecidableEq, Repr

/-- Errors that can leave the backend. `assertionError msg` is the
`AssertionError` keystone reports as AuthenticationFailed; it carries the
message so error shapes can be compared. -/
inductive BackendError where
  | assertionError (msg : String)
  | userNotFound
  | dbConnectionError
deriving DecidableEq, Repr

deriving instance DecidableEq for Except

/-- Trace events for the external-store operations an `authenticate` call
performs. `ldapBind` records a successful `get_connection` (a live session
handle was created); `ldapBindFail` a failed bind attempt (no handle);
`ldapUnbind` an `unbind_s` call releasing the handle. -/
inductive Event where
  | sqlLookup (user_id : String)
  | ldapBind (name : String)
  | ldapBindFail (name : String)
  | ldapUnbind (name : String)
deriving DecidableEq, Repr

/-- The external collaborators, fixed for the duration of a call. -/
structure Env where
  /-- `Identity._get_user` via the SQL superclass (raw record, password kept). -/
  sqlGetUser : String → SqlResult
  /-- `utils.check_password` applied to the supplied password and the stored
  material of the record (`user_ref.password`). -/
  checkPassword : String → Option String → CheckOutcome
  /-- Whether `self.user.get_connection(dn(name), password)` succeeds: the
  bind is the credential check, any failure raises. -/
  ldapBindOk : String → String → Bool
  /-- Raw relational-store row for a name+domain lookup, if any. -/
  sqlUsersByName : String → String → Option UserRef
  /-- `self.user.get_by_name`: the LDAP record for a name, if any
  (`none` means the LDAP lookup raises UserNotFound). -/
  ldapGetByName : String → Option UserRef
  /-- Raw relational-store rows a listing would return. -/
  sqlAllUsers : List UserRef

/-- Instance-scoped mutable state of `Identity`: the Trust-Domain Flag,
initialised to `true` in `__init__`. -/
structure IdentityState where
  domain_aware : Bool
deriving DecidableEq, Repr

/-- Result of one `authenticate` call: the returned record or raised error,
the instance state after the call, and the trace of store operations. -/
structure AuthResult where
  outcome : Except BackendError UserRef
  state : IdentityState
  events : List Event
deriving Repr

/-- The inner `try/except/else/finally` of `Identity.authenticate`: the LDAP
fallback taken when the password check raised `KeyError` or `AssertionError`.
On a successful bind the flag is set to `false`, the handle is unbound in the
`finally`, and the SQL record is returned filtered; on any exception the call
fails with the generic `AssertionError` (no handle was created, so the
`finally` has nothing to release). -/
def ldapFallback (env : Env) (s : IdentityState) (u : UserRef)
    (user_id password : String) : AuthResult :=
  if env.ldapBindOk u.name password then
    ⟨.ok (filter_user u), { s with domain_aware := false },
      [.sqlLookup user_id, .ldapBind u.name, .ldapUnbind u.name]⟩
  else
    ⟨.error (.assertionError "Invalid user / password"), s,
      [.sqlLookup user_id, .ldapBindFail u.name]⟩

/-- `Identity.authenticate(user_id, password)`, translated line by line:
reject an empty password; look the user up in SQL (UserNotFound becomes the
generic `AssertionError`, a connection error propagates); run
`assert utils.check_password(password, user_ref.password)` — a `True` return
succeeds on the SQL path, a raised `TypeError` is re-raised as the generic
`AssertionError`, and `KeyError` / `AssertionError` (check returned `False`)
take the LDAP fallback. -/
def authenticate (env : Env) (s : IdentityState)
    (user_id password : String) : AuthResult :=
  if password = "" then
    ⟨.error (.assertionError "Invalid user / password"), s, []⟩
  else
    match env.sqlGetUser user_id with
    | .connError => ⟨.error .dbConnectionError, s, [.sqlLookup user_id]⟩
    | .notFound =>
        ⟨.error (.assertionError "Invalid user / password"), s,
          [.sqlLookup user_id]⟩
    | .found u =>
        match env.checkPassword password u.password with
        | .ret true => ⟨.ok (filter_user u), s, [.sqlLookup user_id]⟩
        | .typeError =>
            ⟨.error (.assertionError "Invalid user / password"), s,
              [.sqlLookup user_id]⟩
        | .ret false => ldapFallback env s u user_id password
        | .keyError => ldapFallback env s u user_id password

/-- `Identity.is_domain_aware()`: returns the current flag value and, when
that value was `false`, resets the flag to `true`. Returns the pair
(returned value, state after the call). -/
def is_domain_aware (s : IdentityState) : Bool × IdentityState :=
  let domain_aware := s.domain_aware
  let s' := if s.domain_aware = false then { s with domain_aware := true } else s
  (domain_aware, s')

/-- `Identity.get_user(user_id)`: SQL-only lookup (`_get_user` has its LDAP
fallback commented out), result passed through `filter_user`; `UserNotFound`
propagates. -/
def get_user (env : Env) (user_id : String) : Except BackendError UserRef :=
  match env.sqlGetUser user_id with
  | .found u => .ok (filter_user u)
  | .notFound => .error .userNotFound
  | .connError => .error .dbConnectionError

/-- Modelled from the spec: `sql_ident.Identity.get_user_by_name` (the
keystone SQL superclass method, outside this repository). Per the spec the
Relational User Store returns the matching record, already passed through the
filtering step, or UserNotFound. -/
def sql_get_user_by_name (env : Env) (user_name domain_id : String) :
    Option UserRef :=
  (env.sqlUsersByName user_name domain_id).map filter_user

/-- `Identity.get_user_by_name(user_name, domain_id)`: try SQL first; on
`UserNotFound` return `base.filter_user(self.user.get_by_name(user_name))`;
if the LDAP lookup also raises UserNotFound, that propagates. -/
def get_user_by_name (env : Env) (user_name domain_id : String) :
    Except BackendError UserRef :=
  match sql_get_user_by_name env user_name domain_id with
  | some user => .ok user
  | none =>
      match env.ldapGetByName user_name with
      | some u => .ok (filter_user u)
      | none => .error .userNotFound

/-- Modelled from the spec: `sql_ident.Identity.list_users` (keystone SQL
superclass, outside this repository) returns the relational-store records
after the filtering step. -/
def sql_list_users (env : Env) : List UserRef :=
  env.sqlAllUsers.map filter_user

/-- `Identity.list_users(hints)`: returns the SQL listing only (the LDAP
part is commented out). -/
def list_users (env : Env) : List UserRef := sql_list_users env

/-- Number of session handles acquired (successful binds) in a trace. -/
def countBinds (ev : List Event) : Nat :=
  ev.countP fun e => match e with | .ldapBind _ => true | _ => false

/-- Number of handle releases (`unbind_s` calls) in a trace. -/
def countUnbinds (ev : List Event) : Nat :=
  ev.countP fun e => match e with | .ldapUnbind _ => true | _ => false

/-- Number of bind attempts, successful or not, in a trace. -/
def countBindAttempts (ev : List Event) : Nat :=
  ev.countP fun e =>
    match e with | .ldapBind _ => true | .ldapBindFail _ => true | _ => false

/-- `true` iff a returned result carries no password-verification material. -/
def cleanExcept : Except BackendError UserRef → Bool
  | .ok u => u.password.isNone
  | .error _ => true

/-- `true` iff the call raised. -/
def failed : Except BackendError UserRef → Bool
  | .ok _ => false
  | .error _ => true

/-! ### Concrete collaborators for witnesses and counterexamples -/

/-- A relational-store user with password material. -/
def uSql : UserRef := ⟨"u1", "alice", some "hash1", "d", true⟩

/-- A relational-store user without password material (LDAP-backed). -/
def uLdap : UserRef := ⟨"u2", "bob", none, "d", true⟩

/-- A concrete environment: `alice` authenticates via SQL with password
`pw1`, `bob` via the LDAP bind with password `pw2`, `uconn` hits a relational
connection error, every other id is unknown. -/
def cenv : Env where
  sqlGetUser := fun uid =>
    if uid = "u1" then .found uSql
    else if uid = "u2" then .found uLdap
    else if uid = "uconn" then .connError
    else .notFound
  checkPassword := fun pw stored =>
    match stored with
    | some h => if h = "hash1" ∧ pw = "pw1" then .ret true else .ret false
    | none => .keyError
  ldapBindOk := fun name pw => name = "bob" ∧ pw = "pw2"
  sqlUsersByName := fun name dom =>
    if name = "alice" ∧ dom = "d" then some uSql else none
  ldapGetByName := fun name => if name = "bob" then some uLdap else none
  sqlAllUsers := [uSql]

/-- An environment whose password-check primitive always raises `TypeError`
while the LDAP bind would always succeed. -/
def envTypeErr : Env where
  sqlGetUser := fun _ => .found uSql
  checkPassword := fun _ _ => .typeError
  ldapBindOk := fun _ _ => true
  sqlUsersByName := fun _ _ => none
  ldapGetByName := fun _ => none
  sqlAllUsers := []

/-! ### Theorems

One theorem (plus witness or counterexample where required) per claim. -/

/-- Helper: the accessor always leaves the flag `true`, and changes the state
exactly when the value it returned was `false`. -/
theorem is_domain_aware_reset_law (t : IdentityState) :
    (is_domain_aware t).2.domain_aware = true ∧
    ((is_domain_aware t).2 ≠ t ↔ (is_domain_aware t).1 = false) := by
  obtain ⟨b⟩ := t
  cases b <;> simp [is_domain_aware]

/-- C1 is false on the code: a directory-path authentication leaves the flag
`false`; a following successful relational-path authentication does not reset
it, so the next `is_domain_aware` read still returns `false`. -/
theorem sql_auth_does_not_reset_flag_cex :
    (authenticate cenv ⟨true⟩ "u2" "pw2").outcome = .ok (filter_user uLdap) ∧
    (authenticate cenv ⟨true⟩ "u2" "pw2").state = ⟨false⟩ ∧
    (authenticate cenv ⟨false⟩ "u1" "pw1").outcome = .ok (filter_user uSql) ∧
    (authenticate cenv ⟨false⟩ "u1" "pw1").state = ⟨false⟩ ∧
    (is_domain_aware ⟨false⟩).1 = false := by
  decide

/-- C1 (amended): a successful relational-path authentication returns the
filtered record but leaves the Trust-Domain Flag untouched, so the next
`is_domain_aware` read returns the pre-call flag value — `true` only when no
unread directory-path authentication preceded the call. -/
theorem sql_auth_leaves_flag_unchanged (env : Env) (s : IdentityState)
    (user_id password : String) (u : UserRef) (hpw : password ≠ "")
    (hu : env.sqlGetUser user_id = .found u)
    (hc : env.checkPassword password u.password = .ret true) :
    (authenticate env s user_id password).outcome = .ok (filter_user u) ∧
    (authenticate env s user_id password).state = s ∧
    (is_domain_aware (authenticate env s user_id password).state).1
      = s.domain_aware := by
  simp [authenticate, hpw, hu, hc, is_domain_aware]

/-- Witness for `sql_auth_leaves_flag_unchanged` at a concrete input. -/
theorem sql_auth_leaves_flag_unchanged_witness :
    (authenticate cenv ⟨true⟩ "u1" "pw1").outcome = .ok (filter_user uSql) ∧
    (authenticate cenv ⟨true⟩ "u1" "pw1").state = ⟨true⟩ ∧
    (is_domain_aware (authenticate cenv ⟨true⟩ "u1" "pw1").state).1 = true :=
  sql_auth_leaves_flag_unchanged cenv ⟨true⟩ "u1" "pw1" uSql (by decide)
    (by decide) (by decide)

/-- C2: after a successful directory-fallback authentication the first
`is_domain_aware` read returns `false` and the second consecutive read
returns `true`; in general the accessor changes the state exactly when the
value it returned was `false`, so it is not idempotent. -/
theorem ldap_auth_one_shot_flag (env : Env) (s : IdentityState)
    (user_id password : String) (u : UserRef) (hpw : password ≠ "")
    (hu : env.sqlGetUser user_id = .found u)
    (hc : env.checkPassword password u.password = .ret false ∨
          env.checkPassword password u.password = .keyError)
    (hb : env.ldapBindOk u.name password = true) :
    (is_domain_aware (authenticate env s user_id password).state).1 = false ∧
    (is_domain_aware
        (is_domain_aware (authenticate env s user_id password).state).2).1
      = true ∧
    (∀ t : IdentityState,
        (is_domain_aware t).2 ≠ t ↔ (is_domain_aware t).1 = false) := by
  refine ⟨?_, ?_, fun t => (is_domain_aware_reset_law t).2⟩
  · rcases hc with hc | hc <;>
      simp [authenticate, ldapFallback, hpw, hu, hc, hb, is_domain_aware]
  · rcases hc with hc | hc <;>
      simp [authenticate, ldapFallback, hpw, hu, hc, hb, is_domain_aware]

/-- Witness for `ldap_auth_one_shot_flag` at a concrete input. -/
theorem ldap_auth_one_shot_flag_witness :
    (is_domain_aware (authenticate cenv ⟨true⟩ "u2" "pw2").state).1 = false ∧
    (is_domain_aware
        (is_domain_aware (authenticate cenv ⟨true⟩ "u2" "pw2").state).2).1
      = true :=
  ⟨(ldap_auth_one_shot_flag cenv ⟨true⟩ "u2" "pw2" uLdap (by decide)
      (by decide) (Or.inr (by decide)) (by decide)).1,
   (ldap_auth_one_shot_flag cenv ⟨true⟩ "u2" "pw2" uLdap (by decide)
      (by decide) (Or.inr (by decide)) (by decide)).2.1⟩

/-- C3 is false on the code: with the password check raising `TypeError` and
an LDAP bind that would succeed, `authenticate` fails at once with the
generic error and never attempts the directory fallback (no bind event). -/
theorem type_error_not_fallback_cex :
    (authenticate envTypeErr ⟨true⟩ "u1" "pw").outcome
      = .error (.assertionError "Invalid user / password") ∧
    (authenticate envTypeErr ⟨true⟩ "u1" "pw").events = [.sqlLookup "u1"] ∧
    envTypeErr.ldapBindOk "alice" "pw" = true := by
  decide

/-- C3 (amended): a `TypeError` from the password-verification primitive is
terminal — `authenticate` fails immediately with the generic error and no
bind is attempted; the fall-through to the directory fallback happens instead
when the material access raises `KeyError`, in which case exactly one bind
attempt is made. -/
theorem type_error_terminal_key_error_falls_back (env : Env)
    (s : IdentityState) (user_id password : String) (u : UserRef)
    (hpw : password ≠ "") (hu : env.sqlGetUser user_id = .found u) :
    (env.checkPassword password u.password = .typeError →
      (authenticate env s user_id password).outcome
          = .error (.assertionError "Invalid user / password") ∧
      countBindAttempts (authenticate env s user_id password).events = 0) ∧
    (env.checkPassword password u.password = .keyError →
      countBindAttempts (authenticate env s user_id password).events = 1) := by
  constructor
  · intro hc
    simp [authenticate, hpw, hu, hc, countBindAttempts]
  · intro hc
    by_cases hb : env.ldapBindOk u.name password <;>
      simp [authenticate, ldapFallback, hpw, hu, hc, hb, countBindAttempts]

/-- Witness for `type_error_terminal_key_error_falls_back`: the `TypeError`
part at `envTypeErr`, the `KeyError` part at `cenv` with the LDAP user. -/
theorem type_error_terminal_key_error_falls_back_witness :
    ((authenticate envTypeErr ⟨true⟩ "u9" "pw").outcome
        = .error (.assertionError "Invalid user / password") ∧
      countBindAttempts (authenticate envTypeErr ⟨true⟩ "u9" "pw").events
        = 0) ∧
    countBindAttempts (authenticate cenv ⟨true⟩ "u2" "pw2").events = 1 :=
  ⟨(type_error_terminal_key_error_falls_back envTypeErr ⟨true⟩ "u9" "pw" uSql
      (by decide) (by decide)).1 (by decide),
   (type_error_terminal_key_error_falls_back cenv ⟨true⟩ "u2" "pw2" uLdap
      (by decide) (by decide)).2 (by decide)⟩

/-- C4: in every `authenticate` call the number of `unbind_s` releases equals
the number of session handles created by a successful bind, and at most one
handle is ever created — no leak, no double release; on a successful fallback
bind the handle is released exactly once, and a failed bind creates nothing
to release. -/
theorem ldap_handle_released_exactly_once (env : Env) (s : IdentityState)
    (user_id password : String) :
    countUnbinds (authenticate env s user_id password).events
      = countBinds (authenticate env s user_id password).events ∧
    countBinds (authenticate env s user_id password).events ≤ 1 := by
  unfold authenticate ldapFallback
  repeat' split
  all_goals exact ⟨rfl, by first | exact Nat.zero_le 1 | exact Nat.le_refl 1⟩

/-- C5: when the relational lookup does not hit a connection error, every
failing `authenticate` call fails with the same error value — the generic
`AssertionError` with message "Invalid user / password" — whichever stage
failed, so failure shapes are indistinguishable across paths. -/
theorem uniform_failure_signature (env : Env) (s : IdentityState)
    (user_id password : String)
    (hconn : env.sqlGetUser user_id ≠ .connError)
    (hfail : failed (authenticate env s user_id password).outcome = true) :
    (authenticate env s user_id password).outcome
      = .error (.assertionError "Invalid user / password") := by
  by_cases hpw : password = ""
  · simp [authenticate, hpw]
  · rcases hgu : env.sqlGetUser user_id with u | _ | _
    · rcases hc : env.checkPassword password u.password with b | _ | _
      · cases b
        · by_cases hb : env.ldapBindOk u.name password
          · simp [authenticate, ldapFallback, hpw, hgu, hc, hb, failed]
              at hfail
          · simp [authenticate, ldapFallback, hpw, hgu, hc, hb]
        · simp [authenticate, hpw, hgu, hc, failed] at hfail
      · simp [authenticate, hpw, hgu, hc]
      · by_cases hb : env.ldapBindOk u.name password
        · simp [authenticate, ldapFallback, hpw, hgu, hc, hb, failed]
            at hfail
        · simp [authenticate, ldapFallback, hpw, hgu, hc, hb]
    · simp [authenticate, hpw, hgu]
    · exact absurd hgu hconn

/-- Witness for `uniform_failure_signature`: a wrong password for a known
user and any password for an unknown user produce literally the same error. -/
theorem uniform_failure_signature_witness :
    (authenticate cenv ⟨true⟩ "u1" "wrongpw").outcome
      = .error (.assertionError "Invalid user / password") ∧
    (authenticate cenv ⟨true⟩ "nouser" "anypw").outcome
      = .error (.assertionError "Invalid user / password") :=
  ⟨uniform_failure_signature cenv ⟨true⟩ "u1" "wrongpw" (by decide) (by decide),
   uniform_failure_signature cenv ⟨true⟩ "nouser" "anypw" (by decide)
     (by decide)⟩

/-- C6: no record returned by `authenticate`, `get_user`, `get_user_by_name`
or `list_users` carries password-verification material, whichever store
produced it. -/
theorem returned_records_have_no_password (env : Env) (s : IdentityState)
    (user_id password user_name domain_id : String) :
    cleanExcept (authenticate env s user_id password).outcome = true ∧
    cleanExcept (get_user env user_id) = true ∧
    cleanExcept (get_user_by_name env user_name domain_id) = true ∧
    (list_users env).all (fun u => u.password.isNone) = true := by
  refine ⟨?_, ?_, ?_, ?_⟩
  · unfold authenticate ldapFallback
    repeat' split
    all_goals simp [cleanExcept, filter_user]
  · rcases h : env.sqlGetUser user_id with u | _ | _ <;>
      simp [get_user, h, cleanExcept, filter_user]
  · unfold get_user_by_name sql_get_user_by_name
    rcases h : env.sqlUsersByName user_name domain_id with _ | v
    · simp only [h, Option.map_none']
      rcases h2 : env.ldapGetByName user_name with _ | w <;>
        simp [h2, cleanExcept, filter_user]
    · simp [h, cleanExcept, filter_user]
  · simp [list_users, sql_list_users, filter_user, List.all_map,
      Function.comp]

/-- C7: `get_user_by_name` returns the relational-store record when the
name+domain lookup succeeds there; on a relational miss it returns the
filtered directory record for the name instead of failing; it fails with
`UserNotFound` exactly when both stores miss. -/
theorem get_user_by_name_prefers_sql_falls_back (env : Env)
    (user_name domain_id : String) :
    (∀ u, sql_get_user_by_name env user_name domain_id = some u →
        get_user_by_name env user_name domain_id = .ok u) ∧
    (sql_get_user_by_name env user_name domain_id = none →
      (∀ v, env.ldapGetByName user_name = some v →
          get_user_by_name env user_name domain_id = .ok (filter_user v)) ∧
      (env.ldapGetByName user_name = none →
          get_user_by_name env user_name domain_id
            = .error .userNotFound)) := by
  refine ⟨?_, ?_⟩
  · intro u hu
    simp [get_user_by_name, hu]
  · intro hnone
    refine ⟨?_, ?_⟩
    · intro v hv
      simp [get_user_by_name, hnone, hv]
    · intro hl
      simp [get_user_by_name, hnone, hl]

/-- Witness for `get_user_by_name_prefers_sql_falls_back`: SQL hit, SQL miss
with directory hit, and a double miss, in one concrete environment. -/
theorem get_user_by_name_prefers_sql_falls_back_witness :
    get_user_by_name cenv "alice" "d" = .ok (filter_user uSql) ∧
    get_user_by_name cenv "bob" "d" = .ok (filter_user uLdap) ∧
    get_user_by_name cenv "carol" "d" = .error .userNotFound :=
  ⟨(get_user_by_name_prefers_sql_falls_back cenv "alice" "d").1
      (filter_user uSql) (by decide),
   ((get_user_by_name_prefers_sql_falls_back cenv "bob" "d").2 (by decide)).1
      uLdap (by decide),
   ((get_user_by_name_prefers_sql_falls_back cenv "carol" "d").2
      (by decide)).2 (by decide)⟩

/-- C8: an empty password is rejected at once with the generic error; the
instance state is untouched and the trace is empty — neither the relational
store nor the directory service is consulted. -/
theorem empty_password_rejected_without_stores (env : Env)
    (s : IdentityState) (user_id : String) :
    authenticate env s user_id "" =
      ⟨.error (.assertionError "Invalid user / password"), s, []⟩ := by
  simp [authenticate]

/-- C9 is false on the code: a relational-store connection error during the
lookup propagates as its own error kind, not as the generic authentication
failure — only `UserNotFound` is caught on the relational attempt. -/
theorem sql_conn_error_propagates_cex :
    (authenticate cenv ⟨true⟩ "uconn" "pw").outcome
      = .error .dbConnectionError ∧
    BackendError.dbConnectionError
      ≠ .assertionError "Invalid user / password" := by
  decide

/-- C9 (amended): failures of the directory bind attempt are absorbed into
the generic AuthenticationFailed outcome, but a relational-store connection
error in the lookup is not caught and propagates as a distinct error type. -/
theorem ldap_failures_absorbed_sql_conn_errors_not (env : Env)
    (s : IdentityState) (user_id password : String) (hpw : password ≠ "") :
    (env.sqlGetUser user_id = .connError →
      (authenticate env s user_id password).outcome
        = .error .dbConnectionError) ∧
    (∀ u, env.sqlGetUser user_id = .found u →
      (env.checkPassword password u.password = .ret false ∨
       env.checkPassword password u.password = .keyError) →
      env.ldapBindOk u.name password = false →
      (authenticate env s user_id password).outcome
        = .error (.assertionError "Invalid user / password")) := by
  refine ⟨?_, ?_⟩
  · intro h
    simp [authenticate, hpw, h]
  · intro u hu hc hb
    rcases hc with hc | hc <;>
      simp [authenticate, ldapFallback, hpw, hu, hc, hb]

/-- Witness for `ldap_failures_absorbed_sql_conn_errors_not`: a connection
error propagates for `uconn`; a failed bind for the LDAP user is absorbed. -/
theorem ldap_failures_absorbed_sql_conn_errors_not_witness :
    (authenticate cenv ⟨true⟩ "uconn" "pw").outcome
      = .error .dbConnectionError ∧
    (authenticate cenv ⟨true⟩ "u2" "badpw").outcome
      = .error (.assertionError "Invalid user / password") :=
  ⟨(ldap_failures_absorbed_sql_conn_errors_not cenv ⟨true⟩ "uconn" "pw"
      (by decide)).1 (by decide),
   (ldap_failures_absorbed_sql_conn_errors_not cenv ⟨true⟩ "u2" "badpw"
      (by decide)).2 uLdap (by decide) (Or.inr (by decide)) (by decide)⟩

/-- C10: when the relational lookup misses for both domain values, the
directory fallback of `get_user_by_name` depends only on the name — the
results for the two domains are identical, with no selection by or check
against the requested domain. -/
theorem fallback_ignores_domain (env : Env) (user_name d1 d2 : String)
    (h1 : env.sqlUsersByName user_name d1 = none)
    (h2 : env.sqlUsersByName user_name d2 = none) :
    get_user_by_name env user_name d1 = get_user_by_name env user_name d2 := by
  simp [get_user_by_name, sql_get_user_by_name, h1, h2]

/-- Witness for `fallback_ignores_domain` at two concrete domains. -/
theorem fallback_ignores_domain_witness :
    get_user_by_name cenv "bob" "dX" = get_user_by_name cenv "bob" "dY" :=
  fallback_ignores_domain cenv "bob" "dX" "dY" (by decide) (by decide)

end HybridIdentity
